import Mathlib

/-!
Verification of the airwave simulation engine against its specification.

The engine source lives in `src/engine/src/engine.rs` and
`src/engine/src/entities/aircraft/events.rs`.  Numeric quantities (`f32` in
the source) are embedded as rationals where only field arithmetic and
comparisons occur, and as real numbers where trigonometry is needed (the
en-route track generation of `ResumeOwnNavigation`).  Functions of the
repository that are not part of the provided sources (the geometry module,
the path-finder, some aircraft methods) are modelled from the specification;
each such definition carries a doc comment saying so.
-/

namespace AW

/-- Two-dimensional position (`glam::Vec2` in the source), embedded over ℚ. -/
structure V2 where
  x : ℚ
  y : ℚ
deriving DecidableEq, Repr

/-- Squared distance between two points (`Vec2::distance_squared`). -/
def distSq (p q : V2) : ℚ :=
  (p.x - q.x) ^ 2 + (p.y - q.y) ^ 2

/-- Constant `NAUTICALMILES_TO_FEET` from the source crate root. -/
def NM_TO_FEET : ℚ := 6076.12

/-- Constant `KNOT_TO_FEET_PER_SECOND` from the source crate root. -/
def KT_TO_FPS : ℚ := 1.68781

/-- Constant `MAX_TAXI_SPEED` (knots) from the source crate root. -/
def MAX_TAXI_SPEED : ℚ := 20

/-- Modelled from the spec: `sign3` (crate root, not under `src/`): the
three-valued sign used by the arrival-spacing side-step computation. -/
def sign3 (x : ℚ) : ℚ :=
  if 0 < x then 1 else if x < 0 then -1 else 0

/-- Modelled from the spec: `delta_angle` (geometry module, not under
`src/`): the difference of two headings normalised into [-180, 180)
(spec §3: "delta-angles into [-180,180]"). -/
def deltaAngle (a b : ℚ) : ℚ :=
  (a - b) - 360 * ⌊((a - b) + 180) / 360⌋

/-- The TCAS advisory states (`entities::aircraft::TCAS`). -/
inductive TCAS where
  | Idle
  | Warning
  | Hold
  | Climb
  | Descend
deriving DecidableEq, Repr

/-- `TCAS::is_ra`: Climb and Descend are resolution advisories. -/
def TCAS.is_ra : TCAS → Bool
  | .Climb => true
  | .Descend => true
  | _ => false

/-- `TCAS::is_idle`. -/
def TCAS.is_idle : TCAS → Bool
  | .Idle => true
  | _ => false

/-- Node kinds of the taxi graph (`pathfinder::NodeKind`). -/
inductive NodeKind where
  | Gate
  | Taxiway
  | Runway
  | Apron
  | VOR
deriving DecidableEq, Repr

/-- Node behaviors (`pathfinder::NodeBehavior`). -/
inductive NodeBehavior where
  | GoTo
  | Park
  | LineUp
  | Takeoff
  | HoldShort
deriving DecidableEq, Repr

/-- A taxi-graph or flight-plan node (`pathfinder::Node<T>`). -/
structure Node (α : Type) where
  name : String
  kind : NodeKind
  behavior : NodeBehavior
  data : α
deriving DecidableEq, Repr

/-- `Node::name_and_kind_eq`. -/
def nodeNameKindEq (a : Node V2) (b : Node V2) : Bool :=
  a.name = b.name && a.kind = b.kind

/-- Taxi movement sub-states (`entities::aircraft::TaxiingState`). -/
inductive TaxiingState where
  | Armed
  | Stopped
  | Holding
  | Override
deriving DecidableEq, Repr

/-- Landing phases (`entities::aircraft::LandingState`). -/
inductive LandingState where
  | Approach
  | Established
  | Touchdown
deriving DecidableEq, Repr

/-- A runway (`entities::airport::Runway`), with the fields the claims use. -/
structure Runway where
  id : String
  heading : ℚ
  start : V2
deriving DecidableEq, Repr

/-- Aircraft movement state (`entities::aircraft::AircraftState`). -/
inductive AircraftState where
  | Parked (atNode : Node V2)
  | Taxiing (current : Node V2) (waypoints : List (Node V2)) (state : TaxiingState)
  | Flying
  | Landing (runway : Runway) (state : LandingState)
deriving DecidableEq, Repr

/-- `matches!(state, AircraftState::Flying)`. -/
def AircraftState.isFlying : AircraftState → Bool
  | .Flying => true
  | _ => false

/-- `matches!(state, Taxiing { .. } | Parked { .. })`. -/
def AircraftState.isGround : AircraftState → Bool
  | .Taxiing _ _ _ => true
  | .Parked _ => true
  | _ => false

/-- `matches!(state, AircraftState::Parked { .. })`. -/
def AircraftState.isParked : AircraftState → Bool
  | .Parked _ => true
  | _ => false

/-- Logical flight lifecycle segments (`entities::aircraft::FlightSegment`). -/
inductive FlightSegment where
  | Unknown
  | Dormant
  | Boarding
  | Parked
  | TaxiDep
  | Takeoff
  | Departure
  | Climb
  | Cruise
  | Arrival
  | Approach
  | Landing
  | TaxiArr
deriving DecidableEq, Repr

/-- Modelled from the spec: `FlightSegment::in_air` (defined outside `src/`):
per §4.7 the auto-approach pass operates on segments that are in the air. -/
def FlightSegment.inAir : FlightSegment → Bool
  | .Takeoff => true
  | .Departure => true
  | .Climb => true
  | .Cruise => true
  | .Arrival => true
  | .Approach => true
  | .Landing => true
  | _ => false

/-- Per-aircraft separation minima (spec glossary, `separation_minima`). -/
structure SeparationMinima where
  min_speed : ℚ
  max_speed : ℚ
  separation_distance : ℚ
  max_deviation_angle : ℚ
deriving DecidableEq, Repr

/-- The flight plan (`entities::aircraft::FlightPlan`), with the fields the
claims use.  `turn_bias` is a method in the source (outside `src/`) and is
modelled from the spec as the stored bias of the next turn. -/
structure FlightPlan where
  departing : String
  arriving : String
  altitude : ℚ
  speed : ℚ
  waypoints : List (Node V2)
  index : Nat
  course_offset : ℚ
  follow : Bool
  turn_bias : ℚ
deriving DecidableEq, Repr

/-- Desired-state targets (`aircraft.target`). -/
structure Targets where
  heading : ℚ
  altitude : ℚ
  speed : ℚ
deriving DecidableEq, Repr

/-- The aircraft record (`entities::aircraft::Aircraft`), with the fields the
claims use.  `climb_speed` and `sep_minima` are methods in the source
(outside `src/`, implementer-chosen tables per spec §4.3); they are modelled
as stored per-aircraft values. -/
structure Aircraft where
  id : String
  pos : V2
  altitude : ℚ
  heading : ℚ
  speed : ℚ
  target : Targets
  airspace : Option String
  frequency : ℚ
  state : AircraftState
  segment : FlightSegment
  tcas : TCAS
  flight_plan : FlightPlan
  climb_speed : ℚ
  sep_minima : SeparationMinima
deriving DecidableEq, Repr

/-- Event kinds (`entities::aircraft::events::EventKind`).  The `Callout`
payload (a `CommandWithFreq` built for the external comms subsystem) is
not needed by any claim and is omitted. -/
inductive EventKind where
  | Speed (v : ℚ)
  | SpeedAtOrBelow (v : ℚ)
  | SpeedAtOrAbove (v : ℚ)
  | Frequency (f : ℚ)
  | NamedFrequency (name : String)
  | Heading (h : ℚ)
  | Altitude (v : ℚ)
  | AltitudeAtOrBelow (v : ℚ)
  | AltitudeAtOrAbove (v : ℚ)
  | ResumeOwnNavigation (diversion : Bool)
  | Direct (name : String)
  | AmendAndFollow (waypoints : List (Node V2))
  | Land (runway : String)
  | GoAround
  | Touchdown
  | Takeoff (runway : String)
  | Taxi (destinations : List (Node Unit))
  | TaxiContinue
  | TaxiHold (and_state : Bool)
  | LineUp (runway : String)
  | Ident
  | CalloutTARA
  | Segment (prev next : FlightSegment)
  | Delete
deriving DecidableEq, Repr

/-- A per-aircraft event (`AircraftEvent`). -/
structure AircraftEvent where
  id : String
  kind : EventKind
deriving DecidableEq, Repr

/-- UI events (`engine::UIEvent`). -/
inductive UIEvent where
  | Pause
deriving DecidableEq, Repr

/-- The engine event type (`engine::Event`). -/
inductive Ev where
  | Aircraft (e : AircraftEvent)
  | UiEvent (e : UIEvent)
deriving DecidableEq, Repr

/-- The geometry functions the conflict passes use.  `angle_between_points`
(compass bearing) and degree sine/cosine live in the geometry module, which
is outside `src/`; they are passed as parameters so every theorem holds for
any faithful implementation. -/
structure Geom where
  bearing : V2 → V2 → ℚ
  sinDeg : ℚ → ℚ
  cosDeg : ℚ → ℚ

/-- Modelled from the spec: the compass bearing (`angle_between_points`,
outside `src/`) specialised to axis-aligned displacements: 0 = due north,
90 = due east, 180 = due south, 270 = due west.  Used to instantiate
witnesses and counterexamples whose aircraft are axis-aligned. -/
def axialBearing (p q : V2) : ℚ :=
  if p.y < q.y then 0
  else if q.y < p.y then 180
  else if p.x < q.x then 90
  else 270

/-- Modelled from the spec: degree sine at the axis angles (the geometry
module is outside `src/`); witnesses only evaluate it at multiples of 90. -/
def axialSin (x : ℚ) : ℚ :=
  if x = 90 then 1 else if x = -90 ∨ x = 270 then -1 else 0

/-- Modelled from the spec: degree cosine at the axis angles (the geometry
module is outside `src/`); witnesses only evaluate it at multiples of 90. -/
def axialCos (x : ℚ) : ℚ :=
  if x = 0 then 1 else if x = 180 ∨ x = -180 then -1 else 0

/-- The axis-aligned geometry instance used by witnesses. -/
def axialGeom : Geom :=
  { bearing := axialBearing, sinDeg := axialSin, cosDeg := axialCos }

/-- Ordered index pairs, mirroring `itertools`' `combinations(2)` over a
sequence: [(x0,x1), (x0,x2), ..., (x1,x2), ...]. -/
def pairsOf : List α → List (α × α)
  | [] => []
  | x :: xs => xs.map (fun y => (x, y)) ++ pairsOf xs

/-- `feet_to_descend` of the TCAS pass (engine.rs 258-263):
`(500 / climb_speed) * speed * KNOT_TO_FEET_PER_SECOND`. -/
def feetToDescend (a : Aircraft) : ℚ :=
  500 / a.climb_speed * a.speed * KT_TO_FPS

/-- The advisory insertions one pair contributes to the `collisions` map
(engine.rs 241-312).  The `HashMap` is modelled as an insertion log; a later
entry for the same key overwrites an earlier one via `lookupLast`. -/
def tcasInserts (g : Geom) (a b : Aircraft) : List (String × TCAS) :=
  let dist := distSq a.pos b.pos
  let vdist := |a.altitude - b.altitude|
  if a.state.isFlying && b.state.isFlying
      && decide (2000 < a.altitude) && decide (2000 < b.altitude) then
    let total := feetToDescend a + feetToDescend b
    let aAngle := deltaAngle (g.bearing a.pos b.pos) a.heading
    let bAngle := deltaAngle (g.bearing b.pos a.pos) b.heading
    let facing := |aAngle| < 90 ∨ |bAngle| < 90
    let inTa := vdist < 2000 ∧ dist ≤ (total * 2) ^ 2
    let inRa := vdist < 1000 ∧ dist ≤ total ^ 2
    if facing then
      if inRa then
        if a.altitude < b.altitude then
          [(a.id, TCAS.Descend), (b.id, TCAS.Climb)]
        else
          [(a.id, TCAS.Climb), (b.id, TCAS.Descend)]
      else if inTa then
        [(a.id, if a.tcas.is_ra then TCAS.Hold else TCAS.Warning),
         (b.id, if b.tcas.is_ra then TCAS.Hold else TCAS.Warning)]
      else []
    else []
  else []

/-- The full insertion log of the TCAS pair iteration. -/
def tcasMap (g : Geom) (l : List Aircraft) : List (String × TCAS) :=
  ((pairsOf l).map (fun p => tcasInserts g p.1 p.2)).flatten

/-- Lookup in an insertion log: the value of the latest insertion for the
key, mirroring `HashMap::insert` overwrite followed by `get`. -/
def lookupLast (k : String) (m : List (String × TCAS)) : Option TCAS :=
  m.foldl (fun acc p => if p.1 = k then some p.2 else acc) none

/-- The aggregation step of the TCAS pass (engine.rs 314-327) for one
aircraft: apply the pair-assigned advisory if any, otherwise fall back to
Idle, emitting `CalloutTARA` when falling back from a resolution advisory. -/
def applyTcas (m : List (String × TCAS)) (a : Aircraft) : Aircraft × List Ev :=
  match lookupLast a.id m with
  | some t => ({ a with tcas := t }, [])
  | none =>
    if a.tcas.is_idle then (a, [])
    else
      ({ a with tcas := TCAS.Idle },
       if a.tcas.is_ra then [Ev.Aircraft ⟨a.id, EventKind.CalloutTARA⟩] else [])

/-- `Engine::handle_tcas` (engine.rs 238-330): run the pair iteration into
the advisory map, then aggregate per aircraft in sequence order, returning
the updated aircraft and the emitted events. -/
def handleTcas (g : Geom) (l : List Aircraft) : List Aircraft × List Ev :=
  let m := tcasMap g l
  (l.map (fun a => (applyTcas m a).1),
   (l.map (fun a => (applyTcas m a).2)).flatten)

/-- The pair condition of the claim about resolution advisories: both
Flying, both above 2000 ft, facing, vertical separation below 1000 ft and
squared distance within the summed `feet_to_descend` threshold, exactly as
tested by engine.rs 249-287. -/
def raPair (g : Geom) (a b : Aircraft) : Prop :=
  a.state.isFlying = true ∧ b.state.isFlying = true ∧
  2000 < a.altitude ∧ 2000 < b.altitude ∧
  (|deltaAngle (g.bearing a.pos b.pos) a.heading| < 90 ∨
   |deltaAngle (g.bearing b.pos a.pos) b.heading| < 90) ∧
  |a.altitude - b.altitude| < 1000 ∧
  distSq a.pos b.pos ≤ (feetToDescend a + feetToDescend b) ^ 2

instance (g : Geom) (a b : Aircraft) : Decidable (raPair g a b) := by
  unfold raPair; infer_instance

/-- Airport automation status flags (spec §6; `world.rs` is outside `src/`). -/
structure AirportStatus where
  automate_air : Bool
  automate_ground : Bool
  divert_arrivals : Bool
deriving DecidableEq, Repr

/-- A terminal gate (`entities::airport::Gate`). -/
structure GateE where
  id : String
  pos : V2
  available : Bool
deriving DecidableEq, Repr

/-- A terminal (`entities::airport::Terminal`). -/
structure Terminal where
  gates : List GateE
deriving DecidableEq, Repr

/-- A world airport (`entities::airport::Airport`), with the fields the
claims use. -/
structure WAirport where
  id : String
  center : V2
  terminals : List Terminal
  runways : List Runway
deriving DecidableEq, Repr

/-- The world (`entities::world::World`), with the fields the claims use.
`airport_status` (outside `src/`) is modelled from the spec as a lookup in
the status table, defaulting to all-false flags (the source uses
`unwrap_or_default`). -/
structure World where
  airports : List WAirport
  statuses : List (String × AirportStatus)
deriving DecidableEq, Repr

/-- `World::airport_status`. -/
def World.airport_status (w : World) (id : String) : AirportStatus :=
  match w.statuses.find? (fun s => s.1 = id) with
  | some s => s.2
  | none => ⟨false, false, false⟩

/-- The ground pair filter of `Engine::taxi_collisions` (engine.rs 337-370):
both on the ground, same airspace, not both parked, and the airspace (when
present) has ground automation enabled. -/
def taxiPairActive (w : World) (a b : Aircraft) : Bool :=
  a.airspace = b.airspace
  && !(a.state.isParked && b.state.isParked)
  && !(match a.airspace with
       | some id => !(w.airport_status id).automate_ground
       | none => false)

/-- The per-aircraft half of the taxi-conflict test (engine.rs 372-412):
the squared-distance "relative cone" of the spec (§4.5) plus the speed cap. -/
def taxiConflict (g : Geom) (a b : Aircraft) : Bool :=
  let d2 := distSq a.pos b.pos
  let diff := deltaAngle a.heading (g.bearing a.pos b.pos)
  let relX := d2 * |g.sinDeg diff|
  let relY := d2 * g.cosDeg diff
  decide (0 ≤ relY) && decide (relX ≤ 120 ^ 2) && decide (relY ≤ 150 ^ 2)
  && decide (a.speed ≤ MAX_TAXI_SPEED)

/-- The conflict set of one pair (engine.rs 349-412). -/
def taxiPairConflicts (g : Geom) (w : World) (p : Aircraft × Aircraft) :
    List String :=
  if taxiPairActive w p.1 p.2 then
    (if taxiConflict g p.1 p.2 then [p.1.id] else []) ++
    (if taxiConflict g p.2 p.1 then [p.2.id] else [])
  else []

/-- The full conflict set of the taxi pass (a `HashSet` in the source;
membership is all that is consumed). -/
def taxiConflictSet (g : Geom) (w : World) (l : List Aircraft) : List String :=
  ((pairsOf (l.filter (fun a => a.state.isGround))).map
    (taxiPairConflicts g w)).flatten

/-- The resolution step of the taxi pass (engine.rs 415-436) for one
aircraft: stop an Armed aircraft in conflict (emitting
`TaxiHold{and_state:false}`), re-arm a Stopped or Override aircraft out of
conflict (emitting `TaxiContinue` from Stopped). -/
def taxiResolve (conflicts : List String) (a : Aircraft) :
    Aircraft × List Ev :=
  match a.state with
  | .Taxiing cur wps st =>
    if a.id ∈ conflicts ∧ st = TaxiingState.Armed then
      ({ a with state := .Taxiing cur wps TaxiingState.Stopped },
       [Ev.Aircraft ⟨a.id, EventKind.TaxiHold false⟩])
    else if a.id ∉ conflicts ∧
        (st = TaxiingState.Override ∨ st = TaxiingState.Stopped) then
      ({ a with state := .Taxiing cur wps TaxiingState.Armed },
       if st = TaxiingState.Stopped then
         [Ev.Aircraft ⟨a.id, EventKind.TaxiContinue⟩]
       else [])
    else (a, [])
  | _ => (a, [])

/-- `Engine::taxi_collisions` (engine.rs 334-439): build the conflict set
over ground pairs, then resolve every aircraft, returning the updated
aircraft and the events the pass emits.  Note that `Engine::tick`
(engine.rs 196-198) calls this pass but discards the returned events. -/
def taxiCollisions (g : Geom) (w : World) (l : List Aircraft) :
    List Aircraft × List Ev :=
  let conflicts := taxiConflictSet g w l
  (l.map (fun a => (taxiResolve conflicts a).1),
   (l.map (fun a => (taxiResolve conflicts a).2)).flatten)

/-- The occupancy test of `Engine::compute_available_gates`
(engine.rs 216-231): one aircraft blocks one gate of one airport when its
airspace is that airport and it is either parked at a node named like the
gate or taxiing with the gate among its current node or remaining waypoints
as a Gate-kind node. -/
def occupiesGate (apId gateId : String) (a : Aircraft) : Bool :=
  (a.airspace = some apId) &&
  (match a.state with
   | .Parked atNode => atNode.name = gateId
   | .Taxiing current wps _ =>
     (wps ++ [current]).any (fun wp => wp.name = gateId && wp.kind = NodeKind.Gate)
   | _ => false)

/-- Occupancy as the claim words it: quantified over all aircraft in the
game, with no further restriction (in particular no airspace test). -/
def claimOccupiesGate (gateId : String) (a : Aircraft) : Bool :=
  match a.state with
  | .Parked atNode => atNode.name = gateId
  | .Taxiing current wps _ =>
    (wps ++ [current]).any (fun wp => wp.name = gateId && wp.kind = NodeKind.Gate)
  | _ => false

/-- `Engine::compute_available_gates` (engine.rs 209-236) on one airport. -/
def computeGatesAirport (game : List Aircraft) (ap : WAirport) : WAirport :=
  { ap with
    terminals := ap.terminals.map (fun t =>
      { t with
        gates := t.gates.map (fun gt =>
          { gt with available := !(game.any (occupiesGate ap.id gt.id)) }) }) }

/-- `Engine::compute_available_gates` over the whole world. -/
def computeAvailableGates (w : World) (game : List Aircraft) : World :=
  { w with airports := w.airports.map (computeGatesAirport game) }

/-- The `Heading` arm of `handle_aircraft_event` (events.rs 127-137): in
Flying set the heading target and cancel waypoint following; in Landing only
set the heading target; in any other state do nothing.  The follow-flag
(`stop_following`, outside `src/`) is modelled from the spec as the stored
boolean `follow`. -/
def handleHeadingEvent (a : Aircraft) (h : ℚ) : Aircraft :=
  match a.state with
  | .Flying =>
    { a with
      target := { a.target with heading := h },
      flight_plan := { a.flight_plan with follow := false, course_offset := 0 } }
  | .Landing _ _ => { a with target := { a.target with heading := h } }
  | _ => a

/-- One follower assignment of the arrival-spacing pass
(engine.rs 499-526): given the gap `diff` to the aircraft ahead, the
commanded speed and course offset. -/
def spacingEntry (a : Aircraft) (diff : ℚ) : String × ℚ × ℚ :=
  let m := a.sep_minima
  if diff < m.separation_distance then
    let halfSep := m.separation_distance * (1 / 2)
    if diff < halfSep then
      (a.id, m.min_speed, m.max_deviation_angle * (-(sign3 a.flight_plan.turn_bias)))
    else
      let t := max 0 (min 1 ((diff - halfSep) / halfSep))
      let speed := m.min_speed + t * (m.max_speed - m.min_speed)
      (a.id, min speed m.max_speed, 0)
  else (a.id, m.max_speed, 0)

/-- The follower loop of the arrival-spacing pass (engine.rs 497-526):
`cur` is the distance of the aircraft ahead. -/
def spacingLoop (cur : ℚ) : List (Aircraft × ℚ) → List (String × ℚ × ℚ)
  | [] => []
  | (a, d) :: rest => spacingEntry a (d - cur) :: spacingLoop d rest

/-- Stable insertion into a list sorted ascending by the attached
distance. -/
def insertByDist (p : Aircraft × ℚ) : List (Aircraft × ℚ) → List (Aircraft × ℚ)
  | [] => [p]
  | q :: qs => if p.2 < q.2 then p :: q :: qs else q :: insertByDist p qs

/-- Stable sort ascending by distance, mirroring `Vec::sort_by` (a stable
sort) with the `partial_cmp` comparator of engine.rs 486-488. -/
def sortByDist (l : List (Aircraft × ℚ)) : List (Aircraft × ℚ) :=
  l.foldr insertByDist []

/-- The per-group arrival-spacing assignment (engine.rs 485-527): sort the
group ascending by distance-to-final-waypoint; the leader gets its
`separation_minima.max_speed` with course offset 0; each follower gets the
`spacingEntry` for its gap to the aircraft ahead. -/
def spacingAssign (group : List (Aircraft × ℚ)) : List (String × ℚ × ℚ) :=
  match sortByDist group with
  | [] => []
  | (a, d) :: rest => (a.id, a.sep_minima.max_speed, 0) :: spacingLoop d rest

/-- Modelled from the spec: `active_waypoints` of the flight plan (outside
`src/`): the waypoints from the current index onward. -/
def FlightPlan.activeWaypoints (fp : FlightPlan) : List (Node V2) :=
  fp.waypoints.drop fp.index

/-- The aircraft filter of the auto-approach pass (engine.rs 442-451):
in-air segment, and either no airspace or an airspace that is the arriving
or departing airport and has air automation enabled. -/
def autoApproachActive (w : World) (a : Aircraft) : Bool :=
  a.segment.inAir &&
  (match a.airspace with
   | some id =>
     (id = a.flight_plan.arriving || id = a.flight_plan.departing)
     && (w.airport_status id).automate_air
   | none => true)

/-- The grouping key of the auto-approach pass (engine.rs 455-464):
airspace (or the arriving airport) paired with the name of the last active
waypoint (empty when there is none, mirroring `unwrap_or_default`). -/
def approachKey (a : Aircraft) : String × String :=
  (match a.airspace with
   | some id => id
   | none => a.flight_plan.arriving,
   match a.flight_plan.activeWaypoints.getLast? with
   | some wp => wp.name
   | none => "")

/-- Append an item to its group, preserving first-insertion order of keys
(the key-value CONTENT of the source's `HashMap`, in a canonical order; the
source then iterates the map in unspecified hash order). -/
def addToGroups (key : String × String) (item : Aircraft × ℚ) :
    List ((String × String) × List (Aircraft × ℚ)) →
    List ((String × String) × List (Aircraft × ℚ))
  | [] => [(key, [item])]
  | g :: gs =>
    if g.1 = key then (g.1, g.2 ++ [item]) :: gs
    else g :: addToGroups key item gs

/-- The grouping fold of the auto-approach pass (engine.rs 441-481).  The
distance-to-final-waypoint (`flight_plan.distances`, outside `src/`) is
passed in as a function. -/
def approachGroups (w : World) (dist : Aircraft → ℚ) (l : List Aircraft) :
    List ((String × String) × List (Aircraft × ℚ)) :=
  (l.filter (autoApproachActive w)).foldl
    (fun gs a => addToGroups (approachKey a) (a, dist a) gs) []

/-- The flattened speed/offset assignments produced from an enumeration of
the groups (engine.rs 483-527). -/
def speedAssignments
    (groups : List ((String × String) × List (Aircraft × ℚ))) :
    List (String × ℚ × ℚ) :=
  (groups.map (fun g => spacingAssign g.2)).flatten

/-- The event-emission loop of the spacing pass (engine.rs 529-545): for
each assignment, if the aircraft exists and is not in the Landing segment,
emit `Speed` when the commanded speed differs from the current target. -/
def spacingEvents (l : List Aircraft) (assignments : List (String × ℚ × ℚ)) :
    List Ev :=
  assignments.foldl
    (fun evs entry =>
      match l.find? (fun a => a.id = entry.1) with
      | some a =>
        if a.segment ≠ FlightSegment.Landing ∧ a.target.speed ≠ entry.2.1 then
          evs ++ [Ev.Aircraft ⟨entry.1, EventKind.Speed entry.2.1⟩]
        else evs
      | none => evs) []

/-- The result of one path-finder query (spec §4.6, `pathfinder::path_to`;
the path-finder is an external collaborator). -/
structure PathObj where
  path : List (Node V2)
  final_pos : V2
  final_heading : ℚ
deriving DecidableEq, Repr

/-- The path-finder interface: start descriptor, destination descriptor,
current position, current heading, returning a path or none. -/
def PathFn : Type :=
  Node Unit → Node Unit → V2 → ℚ → Option PathObj

/-- Forget a node's position, as the `Taxi` handler does when it re-queries
from the last node of the previous segment (events.rs 526-533). -/
def stripData (n : Node V2) : Node Unit :=
  { name := n.name, kind := n.kind, behavior := n.behavior, data := () }

/-- The per-segment chaining loop of `handle_taxi_event`
(events.rs 522-553): query the path-finder for each successive destination,
threading position, heading and the last reached node; abort with `none` as
soon as a query fails.  The source unwraps the last node of a returned path
(guaranteed non-empty by the §4.6 contract); an empty path keeps the
previous node here. -/
def chainLoop (pf : PathFn) :
    Node V2 → V2 → ℚ → List (Node Unit) → Option (List (Node V2))
  | _, _, _, [] => some []
  | curr, pos, heading, d :: rest =>
    match pf (stripData curr) d pos heading with
    | none => none
    | some p =>
      let nextCurr :=
        match p.path.getLast? with
        | some n => n
        | none => curr
      match chainLoop pf nextCurr p.final_pos p.final_heading rest with
      | none => none
      | some tail => some (p.path ++ tail)

/-- The current ground node of an aircraft, as matched by the outer
`if let` of `handle_taxi_event` (events.rs 508-509). -/
def groundNode : AircraftState → Option (Node V2)
  | .Taxiing current _ _ => some current
  | .Parked atNode => some atNode
  | _ => none

/-- The skip of a leading destination equal to the current node
(events.rs 514-520). -/
def skipCurrent (current : Node V2) (dests : List (Node Unit)) :
    List (Node Unit) :=
  match dests with
  | [] => []
  | d :: rest =>
    if d.name = current.name ∧ d.kind = current.kind then rest else d :: rest

/-- The gate post-pend of `handle_taxi_event` (events.rs 555-575): when the
last chained waypoint is a Gate, append that gate again with behavior Park
and the gate's exact position. -/
def postPendGate (w : World) (a : Aircraft) (wps : List (Node V2)) :
    List (Node V2) :=
  match wps.getLast? with
  | some last =>
    if last.kind = NodeKind.Gate then
      match w.airports.find? (fun ap => a.airspace = some ap.id) with
      | some ap =>
        match (ap.terminals.map (fun t => t.gates)).flatten.find?
            (fun gt => gt.id = last.name) with
        | some gt =>
          wps ++ [{ name := last.name, kind := last.kind,
                    behavior := NodeBehavior.Park, data := gt.pos }]
        | none => wps
      | none => wps
    else wps
  | none => wps

/-- `handle_taxi_event` (events.rs 501-608).  The path-finder is passed in
(external collaborator per spec §4.6); `find_airport` (outside `src/`) is
modelled from the spec as the airport of the current airspace.  The
`TaxiingState` default used when a parked aircraft starts taxiing is
modelled from the spec as Armed (§4.5's neutral state). -/
def handleTaxiEvent (pf : PathFn) (w : World) (a : Aircraft)
    (dests : List (Node Unit)) (events : List Ev) : Aircraft × List Ev :=
  match groundNode a.state with
  | none => (a, events ++ [Ev.Aircraft ⟨a.id, EventKind.TaxiContinue⟩])
  | some current =>
    match chainLoop pf current a.pos a.heading (skipCurrent current dests) with
    | none => (a, events)
    | some wps =>
      let wps := postPendGate w a wps
      if wps = [] then (a, events)
      else
        let newState :=
          match a.state with
          | .Taxiing cur _ st => AircraftState.Taxiing cur wps.reverse st
          | _ => AircraftState.Taxiing current wps.reverse TaxiingState.Armed
        ({ a with state := newState },
         events ++ [Ev.Aircraft ⟨a.id, EventKind.TaxiContinue⟩])

/-- Modelled from the spec: the pause latch (spec §6: "`Pause` toggles a
latch that, when set, causes `tick()` to return immediately with an empty
event list and no state change").  The latch lives in the engine's runner,
outside `src/`; the underlying per-tick transformation is passed in. -/
structure PausedEngine (σ : Type) where
  paused : Bool
  engine : σ
deriving DecidableEq, Repr

/-- Modelled from the spec: one `tick()` under the pause latch: when the
latch is set, return immediately with an empty event list and no state
change; otherwise run the underlying tick. -/
def pausedTick (tick0 : σ → σ × List Ev) (e : PausedEngine σ) :
    PausedEngine σ × List Ev :=
  if e.paused then (e, [])
  else
    let r := tick0 e.engine
    ({ e with engine := r.1 }, r.2)

/-- Run `pausedTick` a number of times, collecting each call's returned
event list. -/
def pausedTickRuns (tick0 : σ → σ × List Ev) :
    Nat → PausedEngine σ → PausedEngine σ × List (List Ev)
  | 0, e => (e, [])
  | n + 1, e =>
    let r := pausedTick tick0 e
    let rest := pausedTickRuns tick0 n r.1
    (rest.1, r.2 :: rest.2)

/-!
The track-generation loop of `ResumeOwnNavigation` (events.rs 208-248) is
embedded over the real numbers, since its candidate filter is
trigonometric.  Angles are in radians here: the source's ±45° thresholds
become ±π/4.  `angle_between_points` and `delta_angle` (geometry module,
outside `src/`) are modelled from the spec: the compass bearing of the
displacement and the angle difference normalised to one turn.
-/

/-- Modelled from the spec: normalisation of an angle into [-π, π] by
subtracting the nearest whole turn (`delta_angle`'s codomain, §3). -/
noncomputable def rWrap (x : ℝ) : ℝ :=
  x - (round (x / (2 * Real.pi)) : ℤ) * (2 * Real.pi)

/-- Modelled from the spec: `delta_angle` over ℝ, in radians. -/
noncomputable def deltaRad (a b : ℝ) : ℝ := rWrap (a - b)

/-- Modelled from the spec: `angle_between_points` over ℝ: the compass
bearing (radians, 0 = north, π/2 = east) of the displacement from `p` to
`q`, as the argument of the complex number `dy + dx·i`. -/
noncomputable def bearingRad (p q : ℝ × ℝ) : ℝ :=
  Complex.arg ⟨q.2 - p.2, q.1 - p.1⟩

/-- Squared distance over ℝ (`Vec2::distance_squared`). -/
def distSqR (p q : ℝ × ℝ) : ℝ :=
  (p.1 - q.1) ^ 2 + (p.2 - q.2) ^ 2

/-- An en-route waypoint of the world (`world.waypoints` entries: a name
and a 2D position). -/
structure RWp where
  name : String
  data : ℝ × ℝ

/-- Projection of a point onto the main-course direction
(unit vector `(sin main, cos main)` in compass convention). -/
noncomputable def proj (main : ℝ) (v : ℝ × ℝ) : ℝ :=
  v.1 * Real.sin main + v.2 * Real.cos main

/-- The candidate filter of the track-generation loop (events.rs 215-234):
not the cursor itself, bearing from the cursor within ±45° of the main
course, bearing to the arrival within ±45° of the main course, and within
90 NM of the cursor. -/
noncomputable def candOK (arrival : ℝ × ℝ) (main : ℝ) (cmp : ℝ × ℝ)
    (w : RWp) : Prop :=
  w.data ≠ cmp ∧
  |deltaRad (bearingRad cmp w.data) main| ≤ Real.pi / 4 ∧
  |deltaRad (bearingRad w.data arrival) main| ≤ Real.pi / 4 ∧
  distSqR cmp w.data ≤ ((6076.12 : ℝ) * 90) ^ 2

open Classical in
/-- The filtered candidate list (events.rs 213-234). -/
noncomputable def cands (wps : List RWp) (arrival : ℝ × ℝ) (main : ℝ)
    (cmp : ℝ × ℝ) : List RWp :=
  wps.filter (fun w => decide (candOK arrival main cmp w))

/-- The deviation key minimised by `min_by` (events.rs 235-243). -/
noncomputable def devKey (main : ℝ) (cmp : ℝ × ℝ) (w : RWp) : ℝ :=
  |deltaRad (bearingRad cmp w.data) main|

/-- `Iterator::min_by` over a non-empty list: the first element attaining
the minimum deviation. -/
noncomputable def pickBest (main : ℝ) (cmp : ℝ × ℝ) (x : RWp)
    (l : List RWp) : RWp :=
  l.foldl (fun best w => if devKey main cmp w < devKey main cmp best then w else best) x

/-- One iteration of the `while let` loop (events.rs 213-247): the chosen
next waypoint, if any candidate remains. -/
noncomputable def trackStep (wps : List RWp) (arrival : ℝ × ℝ) (main : ℝ)
    (cmp : ℝ × ℝ) : Option RWp :=
  match cands wps arrival main cmp with
  | [] => none
  | x :: xs => some (pickBest main cmp x xs)

/-- The track-generation loop with explicit fuel: select a candidate, move
the cursor to it, append it, and repeat.  The source's `while let` has no
fuel; the termination claim is that fuel `wps.length + 1` already reaches
the loop's fixpoint. -/
noncomputable def trackLoop (wps : List RWp) (arrival : ℝ × ℝ) (main : ℝ) :
    Nat → ℝ × ℝ → List RWp → List RWp × (ℝ × ℝ)
  | 0, cmp, acc => (acc, cmp)
  | n + 1, cmp, acc =>
    match trackStep wps arrival main cmp with
    | none => (acc, cmp)
    | some w => trackLoop wps arrival main n w.data (acc ++ [w])

open Classical in
/-- The termination measure: how many waypoints still lie strictly ahead
of the cursor along the main course. -/
noncomputable def countAhead (wps : List RWp) (main : ℝ) (cmp : ℝ × ℝ) : Nat :=
  (wps.filter (fun w => decide (proj main cmp < proj main w.data))).length

/-- The follower assignment as the claim words it: `min_speed` and offset
`-sign3(turn_bias)·max_deviation_angle` when the gap is below half the
separation distance, the clamped interpolation with offset 0 up to the
separation distance, `max_speed` with offset 0 beyond. -/
def claimFollowerEntry (a : Aircraft) (diff : ℚ) : String × ℚ × ℚ :=
  let m := a.sep_minima
  let halfSep := m.separation_distance / 2
  if diff < halfSep then
    (a.id, m.min_speed, -(sign3 a.flight_plan.turn_bias) * m.max_deviation_angle)
  else if diff < m.separation_distance then
    (a.id,
     m.min_speed + (max 0 (min 1 ((diff - halfSep) / halfSep))) * (m.max_speed - m.min_speed),
     0)
  else (a.id, m.max_speed, 0)

/-!
Concrete instances for witnesses and counterexamples.
-/

/-- Separation minima used by the concrete instances: 170/250 kt,
5 NM separation, 20° maximum deviation (the spec's S2 scenario). -/
def minimaS2 : SeparationMinima :=
  { min_speed := 170, max_speed := 250,
    separation_distance := 5 * NM_TO_FEET, max_deviation_angle := 20 }

/-- A flight plan shared by the concrete instances. -/
def fpBase : FlightPlan :=
  { departing := "KD", arriving := "KA", altitude := 30000, speed := 250,
    waypoints := [], index := 0, course_offset := 0, follow := false,
    turn_bias := 1 }

/-- A base aircraft shared by the concrete instances. -/
def acBase : Aircraft :=
  { id := "AC0", pos := ⟨0, 0⟩, altitude := 0, heading := 0, speed := 0,
    target := ⟨0, 0, 0⟩, airspace := none, frequency := 121.5,
    state := AircraftState.Flying, segment := FlightSegment.Cruise,
    tcas := TCAS.Idle, flight_plan := fpBase, climb_speed := 500,
    sep_minima := minimaS2 }

/-- TCAS instance: aircraft at the origin, 5000 ft, heading north. -/
def tcA : Aircraft :=
  { acBase with
    id := "TA", pos := ⟨0, 0⟩, altitude := 5000, heading := 0,
    speed := 100 }

/-- TCAS instance: aircraft 100 ft due north at 5500 ft, heading south
(head-on with `tcA`, inside the RA threshold). -/
def tcB : Aircraft :=
  { acBase with
    id := "TB", pos := ⟨0, 100⟩, altitude := 5500, heading := 180,
    speed := 100 }

/-- TCAS instance: aircraft 400 ft due north of `tcA` at 5400 ft, heading
north (inside `tcA`'s TA threshold but outside the RA threshold, and not
facing `tcB`). -/
def tcC : Aircraft :=
  { acBase with
    id := "TC", pos := ⟨0, 400⟩, altitude := 5400, heading := 0,
    speed := 100 }

/-- An aircraft holding a resolution advisory and no current conflict. -/
def tcRA : Aircraft :=
  { acBase with
    id := "TR", altitude := 5000, tcas := TCAS.Climb }

/-- An empty world: no airports, no statuses. -/
def w0 : World := { airports := [], statuses := [] }

/-- A taxiway node at the origin. -/
def nodeT1 : Node V2 :=
  { name := "T1", kind := NodeKind.Taxiway, behavior := NodeBehavior.GoTo,
    data := ⟨0, 0⟩ }

/-- A taxiway node 100 ft due north. -/
def nodeT2 : Node V2 :=
  { name := "T2", kind := NodeKind.Taxiway, behavior := NodeBehavior.GoTo,
    data := ⟨0, 100⟩ }

/-- Taxi-conflict instance: an Armed taxiing aircraft at the origin heading
north at 5 kt, with `txB` 100 ft ahead of it. -/
def txA : Aircraft :=
  { acBase with
    id := "XA", pos := ⟨0, 0⟩, heading := 0, speed := 5,
    state := AircraftState.Taxiing nodeT1 [] TaxiingState.Armed,
    segment := FlightSegment.TaxiDep }

/-- Taxi-conflict instance: an Armed taxiing aircraft 100 ft due north of
`txA`, heading north (so `txA` is behind it and in conflict, and `txA` is
outside its own forward cone). -/
def txB : Aircraft :=
  { acBase with
    id := "XB", pos := ⟨0, 100⟩, heading := 0, speed := 5,
    state := AircraftState.Taxiing nodeT2 [] TaxiingState.Armed,
    segment := FlightSegment.TaxiDep }

/-- Auto-approach instance: an arrival bound for airport KA with current
speed target 200 kt and no airspace. -/
def apP1 : Aircraft :=
  { acBase with
    id := "P1", segment := FlightSegment.Arrival,
    target := ⟨0, 0, 200⟩,
    flight_plan := { fpBase with arriving := "KA" } }

/-- Auto-approach instance: an arrival bound for airport KB with current
speed target 200 kt and no airspace (a different spacing group than
`apP1`). -/
def apP2 : Aircraft :=
  { acBase with
    id := "P2", segment := FlightSegment.Arrival,
    target := ⟨0, 0, 200⟩,
    flight_plan := { fpBase with arriving := "KB" } }

/-- A fixed distance-to-final-waypoint function for the grouping fold. -/
def distSix (_ : Aircraft) : ℚ := 6 * NM_TO_FEET

/-- Gate G1 of the gate-availability instance. -/
def gateG1 : GateE := { id := "G1", pos := ⟨50, 50⟩, available := false }

/-- The airport KA holding gate G1. -/
def apKA : WAirport :=
  { id := "KA", center := ⟨0, 0⟩, terminals := [{ gates := [gateG1] }],
    runways := [] }

/-- A world holding only airport KA. -/
def wKA : World := { airports := [apKA], statuses := [] }

/-- An aircraft parked at a node named G1 whose airspace is `none`: it
occupies G1 in the claim's reading but not in the code's. -/
def acParkedG1 : Aircraft :=
  { acBase with
    id := "PK", airspace := none,
    state := AircraftState.Parked
      { name := "G1", kind := NodeKind.Gate, behavior := NodeBehavior.GoTo,
        data := ⟨50, 50⟩ },
    segment := FlightSegment.Parked }

/-- Runway 27 for the Landing-state instances. -/
def rw27 : Runway := { id := "27", heading := 270, start := ⟨0, 0⟩ }

/-- A Landing aircraft whose flight plan is being followed with a non-zero
course offset. -/
def acLanding : Aircraft :=
  { acBase with
    id := "LD", state := AircraftState.Landing rw27 LandingState.Approach,
    segment := FlightSegment.Landing,
    target := ⟨100, 3000, 180⟩,
    flight_plan := { fpBase with follow := true, course_offset := 5 } }

/-- A Flying aircraft whose flight plan is being followed with a non-zero
course offset. -/
def acFlying : Aircraft :=
  { acBase with
    id := "FL",
    target := ⟨100, 3000, 180⟩,
    flight_plan := { fpBase with follow := true, course_offset := 5 } }

/-- A Taxiing aircraft (for the no-op case of the Heading handler). -/
def acTaxiing : Aircraft :=
  { acBase with
    id := "TX",
    state := AircraftState.Taxiing nodeT1 [] TaxiingState.Armed,
    segment := FlightSegment.TaxiDep,
    target := ⟨100, 3000, 180⟩,
    flight_plan := { fpBase with follow := true, course_offset := 5 } }

/-- Arrival-spacing instance: the leader, 6 NM from the final waypoint. -/
def spL : Aircraft := { acBase with
    id := "L7", segment := FlightSegment.Arrival }

/-- Arrival-spacing instance: first follower, 10 NM out. -/
def spF1 : Aircraft := { acBase with
    id := "F1", segment := FlightSegment.Arrival }

/-- Arrival-spacing instance: second follower, 14 NM out. -/
def spF2 : Aircraft := { acBase with
    id := "F2", segment := FlightSegment.Arrival }

/-- The spec's S2 spacing group, deliberately out of order: distances 14, 6
and 10 NM with the minima of `minimaS2`. -/
def groupS2 : List (Aircraft × ℚ) :=
  [(spF2, 14 * NM_TO_FEET), (spL, 6 * NM_TO_FEET), (spF1, 10 * NM_TO_FEET)]

/-- A path-finder that fails on every query. -/
def pfNone : PathFn := fun _ _ _ _ => none

/-- An apron node for the Taxi-handler instance. -/
def nodeA1 : Node V2 :=
  { name := "A1", kind := NodeKind.Apron, behavior := NodeBehavior.GoTo,
    data := ⟨0, 0⟩ }

/-- A Taxiing aircraft about to receive a Taxi event. -/
def acTaxi9 : Aircraft :=
  { acBase with
    id := "T9",
    state := AircraftState.Taxiing nodeA1 [] TaxiingState.Armed,
    segment := FlightSegment.TaxiDep }

/-- The destination list of the Taxi-handler instance: one runway node. -/
def destsR1 : List (Node Unit) :=
  [{ name := "R1", kind := NodeKind.Runway, behavior := NodeBehavior.GoTo,
     data := () }]

/-!
Theorems.
-/

/-- C1: when the pause latch is set, `tick()` returns immediately with an
empty event list and changes no engine state; consequently any number of
ticks on a paused engine leaves it equal to the original, each call
returning the empty list. -/
theorem C1_paused_tick_idempotent {σ : Type} (tick0 : σ → σ × List Ev)
    (e : PausedEngine σ) (hp : e.paused = true) (n : Nat) :
    (pausedTickRuns tick0 n e).1 = e ∧
      ∀ evs ∈ (pausedTickRuns tick0 n e).2, evs = ([] : List Ev) := by
  have hstep : pausedTick tick0 e = (e, []) := by
    simp [pausedTick, hp]
  induction n with
  | zero =>
    refine ⟨rfl, ?_⟩
    intro evs h
    simp [pausedTickRuns] at h
  | succ n ih =>
    refine ⟨?_, ?_⟩
    · show (pausedTickRuns tick0 (n + 1) e).1 = e
      simp only [pausedTickRuns, hstep]
      exact ih.1
    · intro evs h
      simp only [pausedTickRuns, hstep, List.mem_cons] at h
      rcases h with h | h
      · exact h
      · exact ih.2 evs h

/-- Witness for C1 at a concrete paused engine over `Nat`, three ticks. -/
theorem C1_witness :
    (pausedTickRuns (fun s : Nat => (s + 1, [])) 3 ⟨true, 0⟩).1 = ⟨true, 0⟩ ∧
      ∀ evs ∈ (pausedTickRuns (fun s : Nat => (s + 1, []))
        3 (⟨true, 0⟩ : PausedEngine Nat)).2, evs = ([] : List Ev) :=
  C1_paused_tick_idempotent (fun s : Nat => (s + 1, [])) ⟨true, 0⟩ rfl 3

/-- C2: evaluation of the taxi-conflict pass at a concrete conflicting
state: it stops the Armed aircraft `txA` (sub-state becomes Stopped) and
emits `TaxiHold{and_state:false}` for it — the event the claim says is then
contained in `tick()`'s returned list.  `Engine::tick` (engine.rs 196-198)
discards the event list this pass returns, so that event never reaches the
outbound buffer. -/
theorem C2_taxi_conflict_emits_hold :
    taxiCollisions axialGeom w0 [txA, txB] =
      ([{ txA with state := AircraftState.Taxiing nodeT1 [] TaxiingState.Stopped },
        txB],
       [Ev.Aircraft ⟨"XA", EventKind.TaxiHold false⟩]) := by
  norm_num [taxiCollisions, taxiConflictSet, pairsOf, taxiPairConflicts,
    taxiPairActive, taxiConflict, taxiResolve, axialGeom, axialBearing,
    axialSin, axialCos, deltaAngle, distSq, MAX_TAXI_SPEED, txA, txB, w0,
    acBase, nodeT1, nodeT2, fpBase, minimaS2, AircraftState.isGround,
    AircraftState.isParked, World.airport_status]
  simp

/-- C5 counterexample: an aircraft parked at a node named G1 whose airspace
is `none` occupies the gate in the claim's reading, yet
`compute_available_gates` marks the gate available, because the code also
requires the aircraft's airspace to be the gate's airport. -/
theorem C5_counterexample :
    (computeAvailableGates wKA [acParkedG1]).airports.map
        (fun ap => ap.terminals.map (fun t => t.gates.map (fun gt => gt.available)))
      = [[[true]]] ∧
    claimOccupiesGate "G1" acParkedG1 = true := by
  constructor
  · simp [computeAvailableGates, computeGatesAirport, wKA, apKA, gateG1,
      occupiesGate, acParkedG1, acBase]
  · simp [claimOccupiesGate, acParkedG1, acBase]

/-- C5 as amended: after `compute_available_gates`, a gate is available iff
no aircraft whose airspace is that gate's airport is parked there or has
the gate among its current-or-remaining taxi waypoints as a Gate node.  The
claim's "with no further restriction" fails: the code restricts the
quantification to aircraft in the airport's airspace. -/
theorem C5_gate_available_iff (w : World) (game : List Aircraft)
    (ap : WAirport) (t : Terminal) (gt : GateE)
    (hap : ap ∈ (computeAvailableGates w game).airports)
    (ht : t ∈ ap.terminals) (hgt : gt ∈ t.gates) :
    gt.available = true ↔ ¬ ∃ a ∈ game, occupiesGate ap.id gt.id a = true := by
  simp only [computeAvailableGates, List.mem_map] at hap
  obtain ⟨ap0, _, rfl⟩ := hap
  simp only [computeGatesAirport, List.mem_map] at ht
  obtain ⟨t0, _, rfl⟩ := ht
  simp only [List.mem_map] at hgt
  obtain ⟨gt0, _, rfl⟩ := hgt
  simp [computeGatesAirport, List.any_eq_true]

/-- Witness for C5 at a world with one airport and one gate and no
aircraft: the recomputed gate is available. -/
theorem C5_witness :
    ((⟨"G1", ⟨50, 50⟩, true⟩ : GateE).available = true ↔
      ¬ ∃ a ∈ ([] : List Aircraft), occupiesGate "KA" "G1" a = true) :=
  C5_gate_available_iff wKA []
    { id := "KA", center := ⟨0, 0⟩,
      terminals := [{ gates := [{ id := "G1", pos := ⟨50, 50⟩, available := true }] }],
      runways := [] }
    { gates := [{ id := "G1", pos := ⟨50, 50⟩, available := true }] }
    ⟨"G1", ⟨50, 50⟩, true⟩
    (by simp [computeAvailableGates, computeGatesAirport, wKA, apKA, gateG1])
    (by simp) (by simp)

/-- C6 counterexample: a `Heading(90)` event on a Landing aircraft sets the
heading target but leaves the follow-flag set and the course offset at 5,
where the claim demands both cleared. -/
theorem C6_counterexample :
    (handleHeadingEvent acLanding 90).target.heading = 90 ∧
    (handleHeadingEvent acLanding 90).flight_plan.follow = true ∧
    (handleHeadingEvent acLanding 90).flight_plan.course_offset = 5 := by
  refine ⟨?_, ?_, ?_⟩ <;>
    simp [handleHeadingEvent, acLanding, acBase, fpBase, rw27]

/-- C6 as amended: `Heading(h)` on a Flying aircraft sets the heading
target, clears the follow-flag and zeroes the course offset; on a Landing
aircraft it only sets the heading target; in any other state it changes
nothing. -/
theorem C6_heading_event (a : Aircraft) (h : ℚ) :
    (a.state = AircraftState.Flying →
      handleHeadingEvent a h =
        { a with
          target := { a.target with heading := h },
          flight_plan :=
            { a.flight_plan with follow := false, course_offset := 0 } }) ∧
    (∀ rw ls, a.state = AircraftState.Landing rw ls →
      handleHeadingEvent a h = { a with target := { a.target with heading := h } }) ∧
    (a.state.isGround = true → handleHeadingEvent a h = a) := by
  refine ⟨fun hst => ?_, fun rw ls hst => ?_, fun hst => ?_⟩
  · simp [handleHeadingEvent, hst]
  · simp [handleHeadingEvent, hst]
  · cases hcs : a.state <;>
      simp_all [handleHeadingEvent, AircraftState.isGround]

/-- C4: the spacing pass's emitted `Speed` events depend on the enumeration
order of the grouping map.  Both orders below enumerate the same key-value
pairs (they are permutations of each other), as a `HashMap` iteration may,
yet they produce different outbound event lists — so a run is not
reproducible from (initial state, inbound events, RNG seed) alone. -/
theorem C4_order_dependent_events :
    (approachGroups w0 distSix [apP1, apP2]).Perm
      ((approachGroups w0 distSix [apP1, apP2]).reverse) ∧
    spacingEvents [apP1, apP2]
        (speedAssignments (approachGroups w0 distSix [apP1, apP2])) ≠
      spacingEvents [apP1, apP2]
        (speedAssignments ((approachGroups w0 distSix [apP1, apP2]).reverse)) := by
  constructor
  · exact (List.reverse_perm _).symm
  · norm_num [approachGroups, addToGroups, approachKey, autoApproachActive,
      FlightPlan.activeWaypoints, FlightSegment.inAir, speedAssignments,
      spacingAssign, sortByDist, insertByDist, spacingLoop, spacingEntry,
      spacingEvents, apP1, apP2, acBase, fpBase, minimaS2, distSix,
      NM_TO_FEET, w0]
    simp [spacingLoop, sortByDist, insertByDist]

/-- C9: when the path-finder fails on any segment of the chained route, the
`Taxi` handler aborts with the aircraft entirely unchanged and appends no
event (in particular no `TaxiContinue`). -/
theorem C9_taxi_abort (pf : PathFn) (w : World) (a : Aircraft)
    (dests : List (Node Unit)) (events : List Ev) (current : Node V2)
    (hcur : groundNode a.state = some current)
    (hfail :
      chainLoop pf current a.pos a.heading (skipCurrent current dests) = none) :
    handleTaxiEvent pf w a dests events = (a, events) := by
  simp only [handleTaxiEvent, hcur, hfail]

/-- Witness for C9: an everywhere-failing path-finder leaves a taxiing
aircraft and the event list untouched. -/
theorem C9_witness :
    handleTaxiEvent pfNone w0 acTaxi9 destsR1 [] = (acTaxi9, []) :=
  C9_taxi_abort pfNone w0 acTaxi9 destsR1 [] nodeA1
    (by simp [groundNode, acTaxi9, acBase, nodeA1])
    (by simp [chainLoop, skipCurrent, pfNone, destsR1, nodeA1, acTaxi9, acBase])

/-- C7 counterexample: at the spec's own S2 instance (distances 6, 10 and
14 NM, minima 170/250 kt, separation 5 NM) the followers are assigned
exactly 218 kt, not ≈221 kt as the claim states: the interpolation factor
is (4 − 2.5)/2.5 = 0.6, so the speed is 170 + 0.6·80 = 218. -/
theorem C7_counterexample :
    (spacingAssign groupS2).map (fun e => e.2.1) = [250, 218, 218] ∧
    (218 : ℚ) ≠ 221 ∧ |(218 : ℚ) - 221| = 3 := by
  refine ⟨?_, by norm_num, by norm_num⟩
  norm_num [spacingAssign, sortByDist, insertByDist, spacingLoop,
    spacingEntry, groupS2, spL, spF1, spF2, acBase, fpBase, minimaS2,
    NM_TO_FEET, sign3]

/-- C7 as amended: within a group sorted ascending by
distance-to-final-waypoint the leader is assigned its
`separation_minima.max_speed` with course offset 0, and every follower
with gap `diff` to the aircraft ahead is assigned `min_speed` with offset
`-sign3(turn_bias)·max_deviation_angle` when `diff` is below half the
separation distance, the clamped interpolation with offset 0 up to the
separation distance, and `max_speed` with offset 0 beyond; at the S2
instance the leader gets 250 kt and both followers exactly 218 kt (not the
claim's ≈221), offset 0. -/
theorem C7_arrival_spacing :
    (∀ (a : Aircraft) (diff : ℚ),
      a.sep_minima.min_speed ≤ a.sep_minima.max_speed →
      0 ≤ a.sep_minima.separation_distance →
      spacingEntry a diff = claimFollowerEntry a diff) ∧
    (∀ (cur : ℚ) (a : Aircraft) (d : ℚ) (rest : List (Aircraft × ℚ)),
      spacingLoop cur ((a, d) :: rest) =
        spacingEntry a (d - cur) :: spacingLoop d rest) ∧
    (∀ (group : List (Aircraft × ℚ)) (a : Aircraft) (d : ℚ)
        (rest : List (Aircraft × ℚ)),
      sortByDist group = (a, d) :: rest →
      spacingAssign group =
        (a.id, a.sep_minima.max_speed, 0) :: spacingLoop d rest) ∧
    spacingAssign groupS2 =
      [("L7", 250, 0), ("F1", 218, 0), ("F2", 218, 0)] := by
  refine ⟨?_, ?_, ?_, ?_⟩
  · intro a diff hmin hsep
    have hhalf : a.sep_minima.separation_distance * (1 / 2) =
        a.sep_minima.separation_distance / 2 := by ring
    simp only [spacingEntry, claimFollowerEntry, hhalf]
    by_cases h1 : diff < a.sep_minima.separation_distance / 2
    · have h2 : diff < a.sep_minima.separation_distance := by linarith
      rw [if_pos h2, if_pos h1, if_pos h1]
      simp [mul_comm]
    · rw [if_neg h1]
      by_cases h2 : diff < a.sep_minima.separation_distance
      · rw [if_pos h2, if_neg h1, if_pos h2]
        have ht1 : max 0 (min 1 ((diff - a.sep_minima.separation_distance / 2) /
            (a.sep_minima.separation_distance / 2))) ≤ 1 :=
          max_le (by norm_num) (min_le_left _ _)
        have hb : max 0 (min 1 ((diff - a.sep_minima.separation_distance / 2) /
              (a.sep_minima.separation_distance / 2))) *
              (a.sep_minima.max_speed - a.sep_minima.min_speed) ≤
            a.sep_minima.max_speed - a.sep_minima.min_speed := by
          have := mul_le_mul_of_nonneg_right ht1 (sub_nonneg.2 hmin)
          simpa using this
        rw [min_eq_left (by linarith)]
      · rw [if_neg h2, if_neg h1, if_neg h2]
  · intro cur a d rest
    rfl
  · intro group a d rest hs
    simp only [spacingAssign, hs]
  · norm_num [spacingAssign, sortByDist, insertByDist, spacingLoop,
      spacingEntry, groupS2, spL, spF1, spF2, acBase, fpBase, minimaS2,
      NM_TO_FEET, sign3]

/-- An insertion-log fold over entries none of which matches the key keeps
the accumulator. -/
theorem foldl_lookup_no_match (k : String) :
    ∀ (m : List (String × TCAS)) (acc : Option TCAS),
      (∀ e ∈ m, e.1 ≠ k) →
      m.foldl (fun acc p => if p.1 = k then some p.2 else acc) acc = acc := by
  intro m
  induction m with
  | nil => intro acc _; rfl
  | cons e m ih =>
    intro acc hno
    simp only [List.foldl_cons]
    rw [if_neg (hno e (List.mem_cons_self e m))]
    exact ih acc (fun x hx => hno x (List.mem_cons_of_mem e hx))

/-- `lookupLast` over an appended log folds the suffix starting from the
prefix's answer. -/
theorem lookupLast_append (k : String) (m1 m2 : List (String × TCAS)) :
    lookupLast k (m1 ++ m2) =
      m2.foldl (fun acc p => if p.1 = k then some p.2 else acc)
        (lookupLast k m1) := by
  simp [lookupLast, List.foldl_append]

/-- The TCAS aggregation step never changes an aircraft's identifier. -/
theorem applyTcas_fst_id (m : List (String × TCAS)) (y : Aircraft) :
    (applyTcas m y).1.id = y.id := by
  unfold applyTcas
  rcases h : lookupLast y.id m with _ | t
  · by_cases hi : y.tcas.is_idle = true
    · simp [h, hi]
    · simp [h, hi]
  · simp [h]

/-- When a pair of the iteration inserts exactly `(a.id, ta), (b.id, tb)`
and no later pair inserts for either identifier, the pass leaves `ta` on
`a` and `tb` on `b`: later insertions overwrite earlier ones, so the last
insert wins. -/
theorem tcas_pair_last_insert (g : Geom) (l : List Aircraft) (a b : Aircraft)
    (pre post : List (Aircraft × Aircraft)) (ta tb : TCAS)
    (hsplit : pairsOf l = pre ++ (a, b) :: post)
    (hins : tcasInserts g a b = [(a.id, ta), (b.id, tb)])
    (hid : a.id ≠ b.id)
    (hpost : ∀ p ∈ post, ∀ kv ∈ tcasInserts g p.1 p.2,
      kv.1 ≠ a.id ∧ kv.1 ≠ b.id) :
    ∀ x ∈ (handleTcas g l).1,
      (x.id = a.id → x.tcas = ta) ∧ (x.id = b.id → x.tcas = tb) := by
  have hmap : tcasMap g l =
      (pre.map (fun p => tcasInserts g p.1 p.2)).flatten ++
        ([(a.id, ta), (b.id, tb)] ++
          (post.map (fun p => tcasInserts g p.1 p.2)).flatten) := by
    simp [tcasMap, hsplit, hins]
  have hpostB : ∀ e ∈ (post.map (fun p => tcasInserts g p.1 p.2)).flatten,
      e.1 ≠ a.id ∧ e.1 ≠ b.id := by
    intro e he
    simp only [List.mem_flatten, List.mem_map] at he
    obtain ⟨li, ⟨p, hp, rfl⟩, hel⟩ := he
    exact hpost p hp e hel
  have hlookA : lookupLast a.id (tcasMap g l) = some ta := by
    rw [hmap, lookupLast_append, List.foldl_append]
    have hba : (b.id = a.id) = False := eq_false (fun h => hid h.symm)
    simp only [List.foldl_cons, List.foldl_nil, hba, if_false, if_true,
      eq_self_iff_true]
    exact foldl_lookup_no_match a.id _ _ (fun e he => (hpostB e he).1)
  have hlookB : lookupLast b.id (tcasMap g l) = some tb := by
    rw [hmap, lookupLast_append, List.foldl_append]
    have hab : (a.id = b.id) = False := eq_false hid
    simp only [List.foldl_cons, List.foldl_nil, hab, if_false, if_true,
      eq_self_iff_true]
    exact foldl_lookup_no_match b.id _ _ (fun e he => (hpostB e he).2)
  intro x hx
  simp only [handleTcas, List.mem_map] at hx
  obtain ⟨y, hy, rfl⟩ := hx
  constructor
  · intro hxa
    have hyid : y.id = a.id := by rw [← applyTcas_fst_id (tcasMap g l) y]; exact hxa
    simp [applyTcas, hyid, hlookA]
  · intro hxb
    have hyid : y.id = b.id := by rw [← applyTcas_fst_id (tcasMap g l) y]; exact hxb
    simp [applyTcas, hyid, hlookB]

/-- C3 as amended: after one TCAS pass, an RA-qualifying pair (both Flying,
both above 2000 ft, facing, vertical separation under 1000 ft, squared
distance within the summed feet-to-descend threshold) leaves Descend on the
aircraft at lower altitude and Climb on the higher one — in either
iteration order of the pair (engine.rs 288-293 handles both) — provided no
later pair of the iteration inserts an advisory for either aircraft: later
pair insertions overwrite earlier ones (spec §5/§9), which the claim as
stated ignores. -/
theorem C3_tcas_ra_pair (g : Geom) (l : List Aircraft) (a b : Aircraft)
    (pre post : List (Aircraft × Aircraft))
    (hsplit : pairsOf l = pre ++ (a, b) :: post)
    (hra : raPair g a b)
    (hid : a.id ≠ b.id)
    (hpost : ∀ p ∈ post, ∀ kv ∈ tcasInserts g p.1 p.2,
      kv.1 ≠ a.id ∧ kv.1 ≠ b.id) :
    ∀ x ∈ (handleTcas g l).1,
      (a.altitude < b.altitude →
        (x.id = a.id → x.tcas = TCAS.Descend) ∧
        (x.id = b.id → x.tcas = TCAS.Climb)) ∧
      (b.altitude < a.altitude →
        (x.id = a.id → x.tcas = TCAS.Climb) ∧
        (x.id = b.id → x.tcas = TCAS.Descend)) := by
  obtain ⟨hf1, hf2, halt1, halt2, hfacing, hv, hd⟩ := hra
  have hcond : (a.state.isFlying && b.state.isFlying &&
      decide (2000 < a.altitude) && decide (2000 < b.altitude)) = true := by
    simp [hf1, hf2, halt1, halt2]
  intro x hx
  constructor
  · intro hlow
    have hins : tcasInserts g a b =
        [(a.id, TCAS.Descend), (b.id, TCAS.Climb)] := by
      simp only [tcasInserts]
      rw [if_pos hcond, if_pos hfacing, if_pos ⟨hv, hd⟩, if_pos hlow]
    exact tcas_pair_last_insert g l a b pre post TCAS.Descend TCAS.Climb
      hsplit hins hid hpost x hx
  · intro hhigh
    have hnot : ¬ a.altitude < b.altitude := not_lt_of_gt hhigh
    have hins : tcasInserts g a b =
        [(a.id, TCAS.Climb), (b.id, TCAS.Descend)] := by
      simp only [tcasInserts]
      rw [if_pos hcond, if_pos hfacing, if_pos ⟨hv, hd⟩, if_neg hnot]
    exact tcas_pair_last_insert g l a b pre post TCAS.Climb TCAS.Descend
      hsplit hins hid hpost x hx

/-- C3 counterexample: with three aircraft, the pair (tcA, tcB) qualifies
for a resolution advisory and tcA is lower, yet after the pass tcA holds
Warning, not Descend: the later pair (tcA, tcC) triggers a traffic advisory
that overwrites tcA's entry in the advisory map. -/
theorem C3_counterexample :
    raPair axialGeom tcA tcB ∧ tcA.altitude < tcB.altitude ∧
    (handleTcas axialGeom [tcA, tcB, tcC]).1.map (fun x => x.tcas) =
      [TCAS.Warning, TCAS.Climb, TCAS.Warning] := by
  refine ⟨?_, by norm_num [tcA, tcB, acBase], ?_⟩
  · norm_num [raPair, tcA, tcB, acBase, fpBase, minimaS2, axialGeom,
      axialBearing, deltaAngle, distSq, feetToDescend, KT_TO_FPS,
      AircraftState.isFlying]
  · norm_num [handleTcas, tcasMap, pairsOf, tcasInserts, applyTcas,
      lookupLast, tcA, tcB, tcC, acBase, fpBase, minimaS2, axialGeom,
      axialBearing, deltaAngle, distSq, feetToDescend, KT_TO_FPS,
      AircraftState.isFlying, TCAS.is_ra, TCAS.is_idle]
    simp

/-- Witness for C3 at two-aircraft instances covering both iteration
orders of the RA pair: with the lower aircraft first in game order it
receives Descend, and with the higher aircraft first it receives Climb. -/
theorem C3_witness :
    (((applyTcas (tcasMap axialGeom [tcA, tcB]) tcA).1.id = tcA.id →
        (applyTcas (tcasMap axialGeom [tcA, tcB]) tcA).1.tcas = TCAS.Descend) ∧
      ((applyTcas (tcasMap axialGeom [tcA, tcB]) tcA).1.id = tcB.id →
        (applyTcas (tcasMap axialGeom [tcA, tcB]) tcA).1.tcas = TCAS.Climb)) ∧
    (((applyTcas (tcasMap axialGeom [tcB, tcA]) tcB).1.id = tcB.id →
        (applyTcas (tcasMap axialGeom [tcB, tcA]) tcB).1.tcas = TCAS.Climb) ∧
      ((applyTcas (tcasMap axialGeom [tcB, tcA]) tcB).1.id = tcA.id →
        (applyTcas (tcasMap axialGeom [tcB, tcA]) tcB).1.tcas = TCAS.Descend)) :=
  ⟨(C3_tcas_ra_pair axialGeom [tcA, tcB] tcA tcB [] []
      (by rfl)
      (by norm_num [raPair, tcA, tcB, acBase, fpBase, minimaS2, axialGeom,
        axialBearing, deltaAngle, distSq, feetToDescend, KT_TO_FPS,
        AircraftState.isFlying])
      (by simp [tcA, tcB, acBase])
      (by simp)
      ((applyTcas (tcasMap axialGeom [tcA, tcB]) tcA).1)
      (by simp [handleTcas])).1
    (by norm_num [tcA, tcB, acBase]),
   (C3_tcas_ra_pair axialGeom [tcB, tcA] tcB tcA [] []
      (by rfl)
      (by norm_num [raPair, tcA, tcB, acBase, fpBase, minimaS2, axialGeom,
        axialBearing, deltaAngle, distSq, feetToDescend, KT_TO_FPS,
        AircraftState.isFlying])
      (by simp [tcA, tcB, acBase])
      (by simp)
      ((applyTcas (tcasMap axialGeom [tcB, tcA]) tcB).1)
      (by simp [handleTcas])).2
    (by norm_num [tcA, tcB, acBase])⟩

/-- Every advisory a TCAS pair inserts is a real advisory, never Idle. -/
theorem tcasInserts_ne_idle (g : Geom) (a b : Aircraft) :
    ∀ kv ∈ tcasInserts g a b, kv.2 ≠ TCAS.Idle := by
  intro kv h
  simp only [tcasInserts] at h
  repeat' split at h
  all_goals simp only [List.mem_cons, List.not_mem_nil, or_false] at h
  all_goals try rcases h with rfl | rfl
  all_goals simp

/-- No entry of the full TCAS insertion log carries Idle. -/
theorem tcasMap_ne_idle (g : Geom) (l : List Aircraft) :
    ∀ e ∈ tcasMap g l, e.2 ≠ TCAS.Idle := by
  intro e he
  simp only [tcasMap, List.mem_flatten, List.mem_map] at he
  obtain ⟨li, ⟨p, hp, rfl⟩, hel⟩ := he
  exact tcasInserts_ne_idle g p.1 p.2 e hel

/-- An insertion-log fold answering `some t` found an entry `(k, t)`,
unless the accumulator already was `some t`. -/
theorem lookup_foldl_mem (k : String) :
    ∀ (m : List (String × TCAS)) (acc : Option TCAS) (t : TCAS),
      m.foldl (fun acc p => if p.1 = k then some p.2 else acc) acc = some t →
      (k, t) ∈ m ∨ acc = some t := by
  intro m
  induction m with
  | nil => intro acc t h; exact Or.inr h
  | cons e m ih =>
    intro acc t h
    simp only [List.foldl_cons] at h
    rcases ih _ t h with hm | hacc
    · exact Or.inl (List.mem_cons_of_mem e hm)
    · by_cases he : e.1 = k
      · rw [if_pos he] at hacc
        injection hacc with h2
        refine Or.inl ?_
        rw [← he, ← h2, Prod.mk.eta]
        exact List.mem_cons_self e m
      · rw [if_neg he] at hacc
        exact Or.inr hacc

/-- A successful `lookupLast` answer is an entry of the log. -/
theorem lookupLast_mem (k : String) (m : List (String × TCAS)) (t : TCAS)
    (h : lookupLast k m = some t) : (k, t) ∈ m := by
  rcases lookup_foldl_mem k m none t h with hm | hacc
  · exact hm
  · cases hacc

/-- C8: in a TCAS pass, an aircraft whose advisory moves from an RA (Climb
or Descend) to Idle has a `CalloutTARA` event emitted for it: the advisory
map never assigns Idle, so the only route to Idle is the fallback branch,
which emits the resolution callout whenever the previous advisory was an
RA. -/
theorem C8_ra_to_idle_emits_callout (g : Geom) (l : List Aircraft)
    (a : Aircraft) (ha : a ∈ l) (hra : a.tcas.is_ra = true)
    (hidle : (applyTcas (tcasMap g l) a).1.tcas = TCAS.Idle) :
    Ev.Aircraft ⟨a.id, EventKind.CalloutTARA⟩ ∈ (handleTcas g l).2 := by
  have hni : a.tcas.is_idle = false := by
    cases htc : a.tcas <;> simp_all [TCAS.is_ra, TCAS.is_idle]
  have hev : (applyTcas (tcasMap g l) a).2 =
      [Ev.Aircraft ⟨a.id, EventKind.CalloutTARA⟩] := by
    rcases h : lookupLast a.id (tcasMap g l) with _ | t
    · simp [applyTcas, h, hni, hra]
    · exfalso
      have hmem : (a.id, t) ∈ tcasMap g l := lookupLast_mem _ _ _ h
      have hne := tcasMap_ne_idle g l _ hmem
      have ht : (applyTcas (tcasMap g l) a).1.tcas = t := by
        simp [applyTcas, h]
      rw [hidle] at ht
      exact hne ht.symm
  have h2 : (applyTcas (tcasMap g l) a).2 ∈
      l.map (fun x => (applyTcas (tcasMap g l) x).2) :=
    List.mem_map_of_mem _ ha
  have h3 : Ev.Aircraft ⟨a.id, EventKind.CalloutTARA⟩ ∈
      (l.map (fun x => (applyTcas (tcasMap g l) x).2)).flatten :=
    List.mem_flatten.2 ⟨_, h2, by rw [hev]; exact List.mem_singleton_self _⟩
  simpa [handleTcas] using h3

/-- Witness for C8: a lone aircraft holding a Climb RA with no conflicting
pair falls back to Idle and the resolution callout is emitted. -/
theorem C8_witness :
    Ev.Aircraft ⟨"TR", EventKind.CalloutTARA⟩ ∈ (handleTcas axialGeom [tcRA]).2 :=
  C8_ra_to_idle_emits_callout axialGeom [tcRA] tcRA (by simp)
    (by simp [tcRA, acBase, TCAS.is_ra])
    (by simp [applyTcas, tcasMap, pairsOf, lookupLast, tcRA, acBase,
      TCAS.is_idle, TCAS.is_ra])

/-- The cosine of an angle is unchanged by the whole-turn normalisation. -/
theorem cos_rWrap (x : ℝ) : Real.cos (rWrap x) = Real.cos x := by
  unfold rWrap
  exact Real.cos_sub_int_mul_two_pi x _

/-- Geometry core of the track loop: a destination whose bearing is within
π/4 of the main course, seen from the cursor, strictly increases the
projection onto the course direction. -/
theorem proj_gain (main : ℝ) (cmp w : ℝ × ℝ) (hne : w ≠ cmp)
    (hcone : |deltaRad (bearingRad cmp w) main| ≤ Real.pi / 4) :
    proj main cmp < proj main w := by
  set dx := w.1 - cmp.1 with hdx
  set dy := w.2 - cmp.2 with hdy
  set z : ℂ := ⟨dy, dx⟩ with hzdef
  have hzne : z ≠ 0 := by
    intro h0
    apply hne
    have h1 : dy = 0 := congrArg Complex.re h0
    have h2 : dx = 0 := congrArg Complex.im h0
    have hw1 : w.1 = cmp.1 := by rw [hdx] at h2; linarith
    have hw2 : w.2 = cmp.2 := by rw [hdy] at h1; linarith
    exact Prod.ext_iff.mpr ⟨hw1, hw2⟩
  have hr : 0 < Complex.abs z := Complex.abs.pos hzne
  set θ := bearingRad cmp w with hθ
  have hcos : Real.cos θ = dy / Complex.abs z := by
    rw [hθ, bearingRad]
    exact Complex.cos_arg hzne
  have hsin : Real.sin θ = dx / Complex.abs z := by
    rw [hθ, bearingRad]
    exact Complex.sin_arg z
  have hdyv : dy = Complex.abs z * Real.cos θ := by
    rw [hcos]
    field_simp
  have hdxv : dx = Complex.abs z * Real.sin θ := by
    rw [hsin]
    field_simp
  have hdiff : proj main w - proj main cmp =
      Complex.abs z * Real.cos (θ - main) := by
    have hexp : proj main w - proj main cmp =
        dx * Real.sin main + dy * Real.cos main := by
      simp only [proj, hdx, hdy]
      ring
    rw [hexp, hdxv, hdyv, Real.cos_sub]
    ring
  have hcosd : Real.cos (θ - main) = Real.cos (deltaRad θ main) := by
    unfold deltaRad
    rw [cos_rWrap]
  have h4 : Real.sqrt 2 / 2 ≤ Real.cos (deltaRad θ main) := by
    calc Real.sqrt 2 / 2 = Real.cos (Real.pi / 4) := (Real.cos_pi_div_four).symm
    _ ≤ Real.cos |deltaRad θ main| :=
        Real.cos_le_cos_of_nonneg_of_le_pi (abs_nonneg _)
          (by linarith [Real.pi_pos]) hcone
    _ = Real.cos (deltaRad θ main) := Real.cos_abs _
  have hpos : 0 < Real.cos (deltaRad θ main) :=
    lt_of_lt_of_le (by positivity) h4
  have hgain : 0 < proj main w - proj main cmp := by
    rw [hdiff, hcosd]
    exact mul_pos hr hpos
  linarith

/-- The first-minimum fold stays within the candidate pool. -/
theorem foldl_min_mem (main : ℝ) (cmp : ℝ × ℝ) :
    ∀ (l : List RWp) (x : RWp),
      l.foldl (fun best w =>
        if devKey main cmp w < devKey main cmp best then w else best) x ∈
        x :: l := by
  intro l
  induction l with
  | nil => intro x; simp
  | cons y ys ih =>
    intro x
    simp only [List.foldl_cons]
    by_cases h : devKey main cmp y < devKey main cmp x
    · rw [if_pos h]
      rcases List.mem_cons.1 (ih y) with h1 | h1
      · rw [h1]
        exact List.mem_cons_of_mem x (List.mem_cons_self y ys)
      · exact List.mem_cons_of_mem x (List.mem_cons_of_mem y h1)
    · rw [if_neg h]
      rcases List.mem_cons.1 (ih x) with h1 | h1
      · rw [h1]
        exact List.mem_cons_self x (y :: ys)
      · exact List.mem_cons_of_mem x (List.mem_cons_of_mem y h1)

/-- A selected track step is a world waypoint satisfying the candidate
filter. -/
theorem trackStep_spec (wps : List RWp) (arrival : ℝ × ℝ) (main : ℝ)
    (cmp : ℝ × ℝ) (w : RWp) (h : trackStep wps arrival main cmp = some w) :
    w ∈ wps ∧ candOK arrival main cmp w := by
  unfold trackStep at h
  rcases hc : cands wps arrival main cmp with _ | ⟨x, xs⟩
  · rw [hc] at h
    cases h
  · rw [hc] at h
    injection h with h
    have hmem : w ∈ x :: xs := by
      rw [← h]
      exact foldl_min_mem main cmp xs x
  -- transport membership back through the filter
    rw [← hc] at hmem
    simpa [cands, List.mem_filter] using hmem

/-- Filtering by a strictly stronger predicate (on the list) yields a
strictly shorter list when some element separates the two. -/
theorem filter_length_lt {α : Type} (p q : α → Bool) :
    ∀ (l : List α), (∀ x ∈ l, q x = true → p x = true) →
      ∀ w ∈ l, p w = true → q w = false →
      (l.filter q).length < (l.filter p).length := by
  intro l
  induction l with
  | nil => intro _ w hw; cases hw
  | cons a t ih =>
    intro himp w hw hp hq
    have himpt : ∀ x ∈ t, q x = true → p x = true :=
      fun x hx hh => himp x (List.mem_cons_of_mem a hx) hh
    have hmono : (t.filter q).length ≤ (t.filter p).length := by
      rw [← List.countP_eq_length_filter, ← List.countP_eq_length_filter]
      exact List.countP_mono_left himpt
    rcases List.mem_cons.1 hw with rfl | hwt
    · rw [List.filter_cons, List.filter_cons, hp, hq]
      simpa using Nat.lt_succ_of_le hmono
    · have hlt := ih himpt w hwt hp hq
      rw [List.filter_cons, List.filter_cons]
      by_cases hqa : q a = true
      · have hpa := himp a (List.mem_cons_self a t) hqa
        rw [hqa, hpa]
        simpa using hlt
      · rw [Bool.eq_false_iff.mpr hqa]
        by_cases hpa : p a = true
        · rw [hpa]
          simp only [if_pos, List.length_cons]
          exact Nat.lt_succ_of_le (le_of_lt hlt)
        · rw [Bool.eq_false_iff.mpr hpa]
          simpa using hlt

/-- Each selected track step strictly shrinks the number of waypoints
still ahead of the cursor along the main course. -/
theorem trackStep_decreases (wps : List RWp) (arrival : ℝ × ℝ) (main : ℝ)
    (cmp : ℝ × ℝ) (w : RWp) (h : trackStep wps arrival main cmp = some w) :
    countAhead wps main w.data < countAhead wps main cmp := by
  obtain ⟨hmem, hok⟩ := trackStep_spec wps arrival main cmp w h
  have hgain : proj main cmp < proj main w.data :=
    proj_gain main cmp w.data hok.1 hok.2.1
  unfold countAhead
  apply filter_length_lt
  · intro x _ hx
    exact decide_eq_true (lt_trans hgain (of_decide_eq_true hx))
  · exact hmem
  · exact decide_eq_true hgain
  · exact decide_eq_false (lt_irrefl _)

/-- Fuel-stability of the track loop from any cursor whose measure is
within the fuel. -/
theorem trackLoop_stable (wps : List RWp) (arrival : ℝ × ℝ) (main : ℝ) :
    ∀ (n : Nat) (cmp : ℝ × ℝ) (acc : List RWp),
      countAhead wps main cmp ≤ n →
      trackLoop wps arrival main (n + 1) cmp acc =
        trackLoop wps arrival main (n + 2) cmp acc := by
  intro n
  induction n with
  | zero =>
    intro cmp acc h0
    rcases hstep : trackStep wps arrival main cmp with _ | w
    · simp only [trackLoop, hstep]
    · exfalso
      have := trackStep_decreases wps arrival main cmp w hstep
      omega
  | succ n ih =>
    intro cmp acc h
    rcases hstep : trackStep wps arrival main cmp with _ | w
    · simp only [trackLoop, hstep]
    · have hd := trackStep_decreases wps arrival main cmp w hstep
      simp only [trackLoop, hstep]
      exact ih w.data (acc ++ [w]) (by omega)

/-- C10: the track-generation loop of `ResumeOwnNavigation` terminates for
every finite waypoint list: running it with fuel `|waypoints| + 1` already
reaches its fixpoint (every accepted candidate lies within ±45° of the main
course as seen from the cursor, so the cursor's projection onto the course
strictly increases and at most `|waypoints|` selections can occur). -/
theorem C10_resume_navigation_terminates (wps : List RWp) (arrival : ℝ × ℝ)
    (main : ℝ) (cmp : ℝ × ℝ) (acc : List RWp) :
    trackLoop wps arrival main (wps.length + 1) cmp acc =
      trackLoop wps arrival main (wps.length + 2) cmp acc :=
  trackLoop_stable wps arrival main wps.length cmp acc
    (List.length_filter_le _ _)

end AW
